import Mathlib

/-!
Shallow embedding of the entitlement / download-authorization core of the
capgo mobile-app backend: the rights resolver (`hasAppRight`), the plan-quota
evaluator (`getTotalStats`, `getPlanUsagePercent`, `getCurrentPlanNameOrg`),
the segment engine (`customerToSegmentOrg`, `processSegments`) from
`supabase/functions/_backend/utils/supabase.ts`, and the download-link
HTTP handler from `supabase/functions/_backend/private/download_link.ts`.

External calls (PostgREST remote procedures, identity provider, URL signer)
are modelled as explicit environment records; a call that the TypeScript
client reports as an error is an `Except.error`, and a thrown JavaScript
exception is an `Except.error` of the surrounding try-block.
-/

/-- The `user_min_right` enum of the store. -/
inductive UserMinRight where
  | read
  | upload
  | write
  | admin
deriving DecidableEq, Repr

/-- Result row of the `get_total_metrics` remote procedure. -/
structure PlanTotal where
  mau : Nat
  bandwidth : Nat
  storage : Nat
  get : Nat
  fail : Nat
  install : Nat
  uninstall : Nat
deriving DecidableEq, Repr

/-- Result row of the `get_plan_usage_percent_detailed` remote procedure. -/
structure PlanUsage where
  total_percent : Nat
  mau_percent : Nat
  bandwidth_percent : Nat
  storage_percent : Nat
deriving DecidableEq, Repr

/-- Behaviour of the store's remote procedures used by the rights / quota
functions: a call either reports an error (the client's `error` field) or
returns data. -/
structure StoreEnv where
  has_app_right_userid : String → UserMinRight → String → Except String Bool
  get_total_metrics : String → Except String PlanTotal
  get_plan_usage_percent_detailed : String → Except String PlanUsage
  get_current_plan_name_org : String → Except String (Option String)

/-- `hasAppRight` from `utils/supabase.ts`: absent (or empty, i.e. falsy)
app id returns `false`; an error from the `has_app_right_userid` remote
procedure returns `false`; otherwise the returned boolean. -/
def hasAppRight (env : StoreEnv) (appId : Option String) (userid : String)
    (right : UserMinRight) : Bool :=
  match appId with
  | none => false
  | some a =>
    if a = "" then false
    else
      match env.has_app_right_userid a right userid with
      | .error _ => false
      | .ok data => data

/-- `getTotalStats` from `utils/supabase.ts`: falsy org id returns the
explicit all-zero object; otherwise the `get_total_metrics` call, whose
error is re-thrown (`throw new Error(error.message)`). -/
def getTotalStats (env : StoreEnv) (orgId : Option String) : Except String PlanTotal :=
  match orgId with
  | none => .ok { mau := 0, bandwidth := 0, storage := 0, get := 0, fail := 0, install := 0, uninstall := 0 }
  | some o =>
    if o = "" then
      .ok { mau := 0, bandwidth := 0, storage := 0, get := 0, fail := 0, install := 0, uninstall := 0 }
    else
      match env.get_total_metrics o with
      | .error e => .error e
      | .ok data => .ok data

/-- `getPlanUsagePercent` from `utils/supabase.ts`: falsy org id returns the
all-zero object; otherwise the `get_plan_usage_percent_detailed` call, whose
error is re-thrown. -/
def getPlanUsagePercent (env : StoreEnv) (orgId : Option String) : Except String PlanUsage :=
  match orgId with
  | none => .ok { total_percent := 0, mau_percent := 0, bandwidth_percent := 0, storage_percent := 0 }
  | some o =>
    if o = "" then
      .ok { total_percent := 0, mau_percent := 0, bandwidth_percent := 0, storage_percent := 0 }
    else
      match env.get_plan_usage_percent_detailed o with
      | .error e => .error e
      | .ok data => .ok data

/-- `DEFAUL_PLAN_NAME` constant (spelling as in the source). -/
def DEFAUL_PLAN_NAME : String := "Solo"

/-- `getCurrentPlanNameOrg` from `utils/supabase.ts`: falsy org id returns
the default plan name; a store error is re-thrown; a null or empty returned
name falls back to the default (`data || DEFAUL_PLAN_NAME`). -/
def getCurrentPlanNameOrg (env : StoreEnv) (orgId : Option String) : Except String String :=
  match orgId with
  | none => .ok DEFAUL_PLAN_NAME
  | some o =>
    if o = "" then .ok DEFAUL_PLAN_NAME
    else
      match env.get_current_plan_name_org o with
      | .error e => .error e
      | .ok data =>
        .ok (match data with
             | none => DEFAUL_PLAN_NAME
             | some s => if s = "" then DEFAUL_PLAN_NAME else s)

/-- One value of the `Segments` record: boolean flag or string field
(`typeof` dispatch in `processSegments`). -/
inductive SegValue where
  | b (v : Bool)
  | s (v : String)
deriving DecidableEq, Repr

/-- The `Segments` object built in `customerToSegmentOrg`, fields in the
insertion order of the object literal. -/
structure Segments where
  capgo : Bool
  onboarded : Bool
  trial : Bool
  trial7 : Bool
  trial1 : Bool
  trial0 : Bool
  paying : Bool
  payingMonthly : Bool
  plan : String
  overuse : Bool
  canceled : Bool
  issueSegment : Bool
deriving DecidableEq, Repr

/-- `Object.entries(segmentsObj)` in the literal's insertion order. -/
def Segments.entries (o : Segments) : List (String × SegValue) :=
  [("capgo", .b o.capgo), ("onboarded", .b o.onboarded), ("trial", .b o.trial),
   ("trial7", .b o.trial7), ("trial1", .b o.trial1), ("trial0", .b o.trial0),
   ("paying", .b o.paying), ("payingMonthly", .b o.payingMonthly),
   ("plan", .s o.plan), ("overuse", .b o.overuse), ("canceled", .b o.canceled),
   ("issueSegment", .b o.issueSegment)]

/-- Output of `processSegments` / `customerToSegmentOrg`. -/
structure SegmentResult where
  segments : List String
  deleteSegments : List String
deriving DecidableEq, Repr

/-- One iteration of the `forEach` body of `processSegments`: a boolean is
pushed (as its bare key) onto `segments` when true and onto `deleteSegments`
when false; a non-empty string is pushed as a `key:value` tag; an empty
string is skipped. -/
def segStep (acc : SegmentResult) (kv : String × SegValue) : SegmentResult :=
  match kv.2 with
  | .b v =>
    if v then { acc with segments := acc.segments ++ [kv.1] }
    else { acc with deleteSegments := acc.deleteSegments ++ [kv.1] }
  | .s v =>
    if v ≠ "" then { acc with segments := acc.segments ++ [kv.1 ++ ":" ++ v] }
    else acc

/-- `processSegments` from `utils/supabase.ts`. -/
def processSegments (segmentsObj : Segments) : SegmentResult :=
  segmentsObj.entries.foldl segStep { segments := [], deleteSegments := [] }

/-- The `plans` table row fields used by `customerToSegmentOrg`. -/
structure PlanRow where
  name : String
  price_m_id : Option String
deriving DecidableEq, Repr

/-- Behaviour of the billing-flag remote procedures consumed by
`customerToSegmentOrg` (each `.single().throwOnError()` call either fails or
returns possibly-null data). -/
structure OrgStoreEnv where
  is_onboarded_org : String → Except String (Option Bool)
  is_canceled_org : String → Except String (Option Bool)
  is_paying_org : String → Except String (Option Bool)
  is_trial_org : String → Except String (Option Int)
  is_good_plan_v5_org : String → Except String (Option Bool)

/-- `isOnboardedOrg`: try/catch around the call, `data || false`. -/
def isOnboardedOrg (env : OrgStoreEnv) (orgId : String) : Bool :=
  match env.is_onboarded_org orgId with
  | .error _ => false
  | .ok d => d.getD false

/-- `isCanceledOrg`: try/catch around the call, `data || false`. -/
def isCanceledOrg (env : OrgStoreEnv) (orgId : String) : Bool :=
  match env.is_canceled_org orgId with
  | .error _ => false
  | .ok d => d.getD false

/-- `isPayingOrg`: try/catch around the call, `data || false`. -/
def isPayingOrg (env : OrgStoreEnv) (orgId : String) : Bool :=
  match env.is_paying_org orgId with
  | .error _ => false
  | .ok d => d.getD false

/-- `isTrialOrg`: try/catch around the call, `data || 0`. -/
def isTrialOrg (env : OrgStoreEnv) (orgId : String) : Int :=
  match env.is_trial_org orgId with
  | .error _ => 0
  | .ok d => d.getD 0

/-- `isGoodPlanOrg`: try/catch around the call, `data || false`. -/
def isGoodPlanOrg (env : OrgStoreEnv) (orgId : String) : Bool :=
  match env.is_good_plan_v5_org orgId with
  | .error _ => false
  | .ok d => d.getD false

/-- `customerToSegmentOrg` from `utils/supabase.ts`: builds the `Segments`
record, then one precedence-ordered branch sets its flags, and the result is
reconciled by `processSegments`. -/
def customerToSegmentOrg (env : OrgStoreEnv) (orgId : String) (price_id : String)
    (plan : Option PlanRow) : SegmentResult :=
  let segmentsObj : Segments := {
    capgo := true
    onboarded := isOnboardedOrg env orgId
    trial := false
    trial7 := false
    trial1 := false
    trial0 := false
    paying := false
    payingMonthly := plan.bind (fun pl => pl.price_m_id) == some price_id
    plan := (plan.map (fun pl => pl.name)).getD ""
    overuse := false
    canceled := isCanceledOrg env orgId
    issueSegment := false }
  let trialDaysLeft := isTrialOrg env orgId
  let paying := isPayingOrg env orgId
  let canUseMore := isGoodPlanOrg env orgId
  if segmentsObj.onboarded = false then
    processSegments segmentsObj
  else if paying = false ∧ trialDaysLeft > 1 ∧ trialDaysLeft ≤ 7 then
    processSegments { segmentsObj with trial := true, trial7 := true }
  else if paying = false ∧ trialDaysLeft = 1 then
    processSegments { segmentsObj with trial := true, trial1 := true }
  else if paying = false ∧ canUseMore = false then
    processSegments { segmentsObj with trial := true, trial0 := true }
  else if paying = true ∧ canUseMore = false ∧ plan.isSome then
    processSegments { segmentsObj with overuse := true, paying := true }
  else if paying = true ∧ canUseMore = true ∧ plan.isSome then
    processSegments { segmentsObj with paying := true }
  else
    processSegments { segmentsObj with issueSegment := true }

/-- Parsed JSON body of the download-link request (`DataDownload`). -/
structure DataDownload where
  app_id : String
  storage_provider : String
  user_id : Option String
  id : Int
deriving DecidableEq, Repr

/-- A JavaScript exception thrown inside the handler's try block: the JSON
body failing to parse, or a property access on `null`/`undefined`. -/
inductive JsError where
  | parseError
  | typeError
deriving DecidableEq, Repr

/-- `JSON.stringify` of a JavaScript `Error` object (no enumerable own
properties, hence the empty object). -/
def jsonStringifyError (_ : JsError) : String := "\x7b\x7d"

/-- JSON body of a handler response. -/
inductive RespBody where
  | urlBody (url : String)
  | statusBody (status : String)
  | statusApp (status : String) (app_id : String)
  | statusErrBody (status : String) (error : String)
deriving DecidableEq, Repr

/-- An HTTP response: status code and JSON body. -/
structure HttpResp where
  code : Nat
  body : RespBody
deriving DecidableEq, Repr

/-- `auth.user` of the identity provider's `getUser` response. -/
structure GetUserData where
  user : Option String
deriving DecidableEq, Repr

/-- `supabaseAdmin(c).auth.getUser(...)` response: `data` and `error`. -/
structure GetUserResult where
  data : Option GetUserData
  error : Option String
deriving DecidableEq, Repr

/-- JavaScript guard `error || !auth || !auth.user` on a `getUser` result. -/
def getUserRejected (r : GetUserResult) : Bool :=
  r.error.isSome || r.data.isNone || (r.data.bind GetUserData.user).isNone

/-- The `owner_org ( created_by )` join selected with the bundle. -/
structure OwnerOrgJoin where
  created_by : Option String
deriving DecidableEq, Repr

/-- An `app_versions` row as selected by the handler. -/
structure BundleRow where
  owner_org : Option OwnerOrgJoin
deriving DecidableEq, Repr

/-- A supabase `.single()` response: `data` and `error`, as returned to the
caller (not thrown). -/
structure SingleResult (α : Type) where
  data : Option α
  error : Option String
deriving DecidableEq, Repr

/-- External collaborators of the download-link handler: identity provider,
store (for `hasAppRight` and the bundle lookup) and the URL signer. -/
structure DownloadEnv where
  store : StoreEnv
  getUser : Option String → GetUserResult
  app_versions_lookup : String → Int → SingleResult BundleRow
  getBundleUrl : String → BundleRow → Option String

/-- One download-link request: the JSON body (or its parse failure) and the
`authorization` header. -/
structure DownloadRequest where
  body : Except JsError DataDownload
  authorization : Option String

/-- JavaScript `String.prototype.split` with a non-empty separator, over
character lists, with fuel for structural recursion (fuel at least the
length of the input never runs out). -/
def jsSplitGo (sep : List Char) : Nat → List Char → List (List Char)
  | _, [] => [[]]
  | 0, s => [s]
  | fuel + 1, c :: rest =>
    if sep.isPrefixOf (c :: rest) then
      [] :: jsSplitGo sep fuel (List.drop (sep.length - 1) rest)
    else
      match jsSplitGo sep fuel rest with
      | [] => [[c]]
      | hd :: tl => (c :: hd) :: tl

/-- JavaScript `s.split(sep)` for a non-empty separator `sep`. -/
def jsSplit (s sep : String) : List String :=
  (jsSplitGo sep.data s.data.length s.data).map List.asString

/-- The try block of the `app.post('/')` handler of
`private/download_link.ts`, following the source line by line. The header
guard `if (!authorization)` is falsy-sensitive: a missing and an
empty-string Authorization header both reject. An
`Except.error` is a thrown JavaScript exception; note that
`(bundle?.owner_org as any).created_by` is evaluated before `getBundleError`
is inspected, so a missing bundle or a null `owner_org` join throws a
`TypeError` instead of reaching the `Error unknow` branches. -/
def downloadLinkTry (env : DownloadEnv) (req : DownloadRequest) : Except JsError HttpResp :=
  match req.body with
  | .error e => .error e
  | .ok body =>
    match req.authorization with
    | none => .ok ⟨400, .statusBody "Cannot find authorization"⟩
    | some authorization =>
      if authorization = "" then .ok ⟨400, .statusBody "Cannot find authorization"⟩
      else
      let r := env.getUser ((jsSplit authorization "Bearer ")[1]?)
      if getUserRejected r then .ok ⟨400, .statusBody "not authorize"⟩
      else
        let userId := (r.data.bind GetUserData.user).getD ""
        if hasAppRight env.store (some body.app_id) userId UserMinRight.read = false then
          .ok ⟨400, .statusApp "You can\x27t access this app" body.app_id⟩
        else
          let res := env.app_versions_lookup body.app_id body.id
          match res.data with
          | none => .error JsError.typeError
          | some bundle =>
            match bundle.owner_org with
            | none => .error JsError.typeError
            | some ownerOrgRow =>
              let ownerOrg := ownerOrgRow.created_by
              if res.error.isSome then .ok ⟨500, .statusBody "Error unknow"⟩
              else if ownerOrg = none ∨ ownerOrg = some "" then
                .ok ⟨500, .statusBody "Error unknow"⟩
              else
                match env.getBundleUrl (ownerOrg.getD "") bundle with
                | none => .ok ⟨500, .statusBody "Error unknow"⟩
                | some url => .ok ⟨200, .urlBody url⟩

/-- The whole `app.post('/')` handler: the try block plus the catch clause
that converts a thrown exception into
`500 (status: Cannot get download link, error: JSON.stringify(e))`. -/
def downloadLinkHandler (env : DownloadEnv) (req : DownloadRequest) : HttpResp :=
  match downloadLinkTry env req with
  | .ok resp => resp
  | .error e => ⟨500, .statusErrBody "Cannot get download link" (jsonStringifyError e)⟩

/-- Tags one entry contributes to `segments`. -/
def entrySegs : String × SegValue → List String
  | (k, .b v) => if v then [k] else []
  | (k, .s v) => if v ≠ "" then [k ++ ":" ++ v] else []

/-- Tags one entry contributes to `deleteSegments`. -/
def entryDels : String × SegValue → List String
  | (k, .b v) => if v then [] else [k]
  | (_, .s _) => []

/-- Tags a list of entries contributes to `segments`, in order. -/
def entriesSegs : List (String × SegValue) → List String
  | [] => []
  | kv :: rest => entrySegs kv ++ entriesSegs rest

/-- Tags a list of entries contributes to `deleteSegments`, in order. -/
def entriesDels : List (String × SegValue) → List String
  | [] => []
  | kv :: rest => entryDels kv ++ entriesDels rest

lemma segStep_eq (acc : SegmentResult) (kv : String × SegValue) :
    segStep acc kv = ⟨acc.segments ++ entrySegs kv, acc.deleteSegments ++ entryDels kv⟩ := by
  rcases kv with ⟨k, v | v⟩
  · cases v <;> simp [segStep, entrySegs, entryDels]
  · by_cases hv : v = "" <;> simp [segStep, entrySegs, entryDels, hv]

lemma foldl_segStep_eq (l : List (String × SegValue)) (acc : SegmentResult) :
    l.foldl segStep acc = ⟨acc.segments ++ entriesSegs l, acc.deleteSegments ++ entriesDels l⟩ := by
  induction l generalizing acc with
  | nil => simp [entriesSegs, entriesDels]
  | cons kv rest ih =>
    rw [List.foldl_cons, ih, segStep_eq]
    simp [entriesSegs, entriesDels]

lemma processSegments_eq (o : Segments) :
    processSegments o = ⟨entriesSegs o.entries, entriesDels o.entries⟩ := by
  rw [processSegments, foldl_segStep_eq]
  rfl

/-- The keys of the boolean fields of `Segments`, in entry order. -/
def boolKeys : List String :=
  ["capgo", "onboarded", "trial", "trial7", "trial1", "trial0",
   "paying", "payingMonthly", "overuse", "canceled", "issueSegment"]

/-- Projection of a boolean field of `Segments` by its key. -/
def segField (o : Segments) : String → Bool
  | "capgo" => o.capgo
  | "onboarded" => o.onboarded
  | "trial" => o.trial
  | "trial7" => o.trial7
  | "trial1" => o.trial1
  | "trial0" => o.trial0
  | "paying" => o.paying
  | "payingMonthly" => o.payingMonthly
  | "overuse" => o.overuse
  | "canceled" => o.canceled
  | "issueSegment" => o.issueSegment
  | _ => false

lemma string_data_append (a b : String) : (a ++ b).data = a.data ++ b.data := by
  cases a; cases b; rfl

/-- A `plan:<value>` tag is never one of the bare boolean keys (it contains
a colon, they do not). -/
lemma planTag_ne_boolKey (p k : String) (hk : k ∈ boolKeys) : "plan:" ++ p ≠ k := by
  intro h
  have hc : ':' ∈ ("plan:" ++ p).data := by
    rw [string_data_append]
    exact List.mem_append_left _ (by decide)
  rw [h] at hc
  fin_cases hk <;> revert hc <;> decide

lemma plan_colon (p : String) : "plan" ++ ":" ++ p = "plan:" ++ p := by
  have h : "plan" ++ ":" = "plan:" := by decide
  rw [h]

lemma mem_boolTag (x k : String) (v : Bool) :
    (x ∈ if v = true then [k] else ([] : List String)) ↔ (v = true ∧ x = k) := by
  cases v <;> simp

lemma mem_boolTagNeg (x k : String) (v : Bool) :
    (x ∈ if v = true then ([] : List String) else [k]) ↔ (v = false ∧ x = k) := by
  cases v <;> simp

lemma mem_strTag (x k p : String) :
    (x ∈ if p ≠ "" then [k ++ ":" ++ p] else ([] : List String)) ↔ (p ≠ "" ∧ x = k ++ ":" ++ p) := by
  by_cases h : p = "" <;> simp [h]

/-- A tag is in `(processSegments o).segments` iff it is the bare key of a
boolean field that is `true`, or the `plan:<name>` tag of a non-empty plan. -/
lemma mem_segments_iff (o : Segments) (x : String) :
    x ∈ (processSegments o).segments ↔
      (x ∈ boolKeys ∧ segField o x = true) ∨ (o.plan ≠ "" ∧ x = "plan:" ++ o.plan) := by
  constructor
  · intro hx
    rw [processSegments_eq] at hx
    simp only [Segments.entries, entriesSegs, entrySegs, List.mem_append, mem_boolTag,
      mem_strTag, List.not_mem_nil, or_false] at hx
    rcases hx with ⟨h, rfl⟩ | ⟨h, rfl⟩ | ⟨h, rfl⟩ | ⟨h, rfl⟩ | ⟨h, rfl⟩ | ⟨h, rfl⟩ |
      ⟨h, rfl⟩ | ⟨h, rfl⟩ | ⟨h, rfl⟩ | ⟨h, rfl⟩ | ⟨h, rfl⟩ | ⟨h, rfl⟩
    · exact Or.inl ⟨by decide, h⟩
    · exact Or.inl ⟨by decide, h⟩
    · exact Or.inl ⟨by decide, h⟩
    · exact Or.inl ⟨by decide, h⟩
    · exact Or.inl ⟨by decide, h⟩
    · exact Or.inl ⟨by decide, h⟩
    · exact Or.inl ⟨by decide, h⟩
    · exact Or.inl ⟨by decide, h⟩
    · exact Or.inr ⟨h, (plan_colon o.plan).symm⟩
    · exact Or.inl ⟨by decide, h⟩
    · exact Or.inl ⟨by decide, h⟩
    · exact Or.inl ⟨by decide, h⟩
  · intro h
    rw [processSegments_eq]
    rcases h with ⟨hk, hf⟩ | ⟨hp, rfl⟩
    · fin_cases hk <;>
        simp_all only [segField] <;>
        simp [Segments.entries, entriesSegs, entrySegs, List.mem_append, mem_boolTag,
          mem_strTag, hf]
    · simp [Segments.entries, entriesSegs, entrySegs, List.mem_append, mem_boolTag,
        mem_strTag, hp, plan_colon]

/-- A tag is in `(processSegments o).deleteSegments` iff it is the bare key
of a boolean field that is `false`. -/
lemma mem_deleteSegments_iff (o : Segments) (x : String) :
    x ∈ (processSegments o).deleteSegments ↔ (x ∈ boolKeys ∧ segField o x = false) := by
  constructor
  · intro hx
    rw [processSegments_eq] at hx
    simp only [Segments.entries, entriesDels, entryDels, List.mem_append, mem_boolTagNeg,
      List.not_mem_nil, or_false, false_or] at hx
    rcases hx with ⟨h, rfl⟩ | ⟨h, rfl⟩ | ⟨h, rfl⟩ | ⟨h, rfl⟩ | ⟨h, rfl⟩ | ⟨h, rfl⟩ |
      ⟨h, rfl⟩ | ⟨h, rfl⟩ | ⟨h, rfl⟩ | ⟨h, rfl⟩ | ⟨h, rfl⟩
    · exact ⟨by decide, h⟩
    · exact ⟨by decide, h⟩
    · exact ⟨by decide, h⟩
    · exact ⟨by decide, h⟩
    · exact ⟨by decide, h⟩
    · exact ⟨by decide, h⟩
    · exact ⟨by decide, h⟩
    · exact ⟨by decide, h⟩
    · exact ⟨by decide, h⟩
    · exact ⟨by decide, h⟩
    · exact ⟨by decide, h⟩
  · intro h
    rw [processSegments_eq]
    rcases h with ⟨hk, hf⟩
    fin_cases hk <;>
      simp_all only [segField] <;>
      simp [Segments.entries, entriesDels, entryDels, List.mem_append, mem_boolTagNeg, hf]

/-- C7: with an absent org id, `getTotalStats` returns exactly the all-zero
stats object and `getPlanUsagePercent` returns exactly the all-zero percent
object, for every store behaviour (so without consulting the store) and
without error. -/
theorem quota_absent_org_zero_defaults (env : StoreEnv) :
    getTotalStats env none
      = .ok { mau := 0, bandwidth := 0, storage := 0, get := 0, fail := 0, install := 0, uninstall := 0 }
    ∧ getPlanUsagePercent env none
      = .ok { total_percent := 0, mau_percent := 0, bandwidth_percent := 0, storage_percent := 0 } :=
  ⟨rfl, rfl⟩

/-- Store environment whose metric calls fail (used for C2). -/
def envC2 : StoreEnv := {
  has_app_right_userid := fun _ _ _ => .ok true
  get_total_metrics := fun _ => .error "network down"
  get_plan_usage_percent_detailed := fun _ => .error "network down"
  get_current_plan_name_org := fun _ => .ok (some "Pro") }

/-- C2 counterexample: when the store call fails, `getTotalStats` and
`getPlanUsagePercent` do not return their all-zero defaults — they raise the
store error (`throw new Error(error.message)`). -/
theorem quota_store_error_cex :
    getTotalStats envC2 (some "org_1") = .error "network down"
    ∧ getTotalStats envC2 (some "org_1")
        ≠ .ok { mau := 0, bandwidth := 0, storage := 0, get := 0, fail := 0, install := 0, uninstall := 0 }
    ∧ getPlanUsagePercent envC2 (some "org_1") = .error "network down"
    ∧ getPlanUsagePercent envC2 (some "org_1")
        ≠ .ok { total_percent := 0, mau_percent := 0, bandwidth_percent := 0, storage_percent := 0 } :=
  ⟨rfl, fun h => Except.noConfusion h, rfl, fun h => Except.noConfusion h⟩

/-- C2 (amended): when the underlying store call of `getTotalStats` or
`getPlanUsagePercent` fails, the operation propagates that error to its
caller (the all-zero defaults apply only to an absent org id). -/
theorem quota_store_error_propagates (env : StoreEnv) (o m : String) (ho : o ≠ "") :
    (env.get_total_metrics o = .error m → getTotalStats env (some o) = .error m)
    ∧ (env.get_plan_usage_percent_detailed o = .error m →
        getPlanUsagePercent env (some o) = .error m) := by
  refine ⟨fun h => ?_, fun h => ?_⟩ <;> simp [getTotalStats, getPlanUsagePercent, ho, h]

/-- C2 witness: the amended statement evaluated on a concrete failing
store. -/
theorem quota_store_error_propagates_witness :
    getTotalStats envC2 (some "org_1") = .error "network down"
    ∧ getPlanUsagePercent envC2 (some "org_1") = .error "network down" :=
  ⟨(quota_store_error_propagates envC2 "org_1" "network down" (by decide)).1 rfl,
   (quota_store_error_propagates envC2 "org_1" "network down" (by decide)).2 rfl⟩

/-- Store environment whose plan-name call fails (used for C9). -/
def envC9 : StoreEnv := {
  has_app_right_userid := fun _ _ _ => .ok true
  get_total_metrics := fun _ => .ok { mau := 1, bandwidth := 1, storage := 1, get := 1, fail := 0, install := 1, uninstall := 0 }
  get_plan_usage_percent_detailed := fun _ => .ok { total_percent := 1, mau_percent := 1, bandwidth_percent := 1, storage_percent := 1 }
  get_current_plan_name_org := fun _ => .error "boom" }

/-- Store environment whose plan-name call returns a null name (used for
C9). -/
def envC9ok : StoreEnv := { envC9 with get_current_plan_name_org := fun _ => .ok none }

/-- C9 counterexample: when the `get_current_plan_name_org` call reports an
error, `getCurrentPlanNameOrg` raises it to the caller instead of returning
a name. -/
theorem plan_name_store_error_cex :
    getCurrentPlanNameOrg envC9 (some "org_1") = .error "boom"
    ∧ getCurrentPlanNameOrg envC9 (some "org_1") ≠ .ok "Solo" :=
  ⟨rfl, fun h => Except.noConfusion h⟩

/-- C9 (amended): `getCurrentPlanNameOrg` returns the baseline tier name
"Solo" when the org id is absent or the store returns no explicit plan name,
but a store error is raised to the caller. -/
theorem plan_name_solo_fallback (env : StoreEnv) (o m : String) (ho : o ≠ "") :
    getCurrentPlanNameOrg env none = .ok "Solo"
    ∧ (env.get_current_plan_name_org o = .ok none →
        getCurrentPlanNameOrg env (some o) = .ok "Solo")
    ∧ (env.get_current_plan_name_org o = .error m →
        getCurrentPlanNameOrg env (some o) = .error m) := by
  refine ⟨rfl, fun h => ?_, fun h => ?_⟩ <;> simp [getCurrentPlanNameOrg, ho, h, DEFAUL_PLAN_NAME]

/-- C9 witness: the amended statement evaluated on concrete stores. -/
theorem plan_name_solo_fallback_witness :
    getCurrentPlanNameOrg envC9ok none = .ok "Solo"
    ∧ getCurrentPlanNameOrg envC9ok (some "org_1") = .ok "Solo"
    ∧ getCurrentPlanNameOrg envC9 (some "org_1") = .error "boom" :=
  ⟨(plan_name_solo_fallback envC9ok "org_1" "boom" (by decide)).1,
   (plan_name_solo_fallback envC9ok "org_1" "boom" (by decide)).2.1 rfl,
   (plan_name_solo_fallback envC9 "org_1" "boom" (by decide)).2.2 rfl⟩

/-- C5: `hasAppRight` is fail-closed — an absent app id returns `false`, and
an error reported by the `has_app_right_userid` lookup returns `false`; as a
total function into `Bool` it raises nothing and mutates nothing. -/
theorem hasAppRight_fail_closed (env : StoreEnv) (userid : String) (right : UserMinRight) :
    hasAppRight env none userid right = false
    ∧ (∀ a e, env.has_app_right_userid a right userid = .error e →
        hasAppRight env (some a) userid right = false) := by
  refine ⟨rfl, fun a e h => ?_⟩
  by_cases ha : a = "" <;> simp [hasAppRight, ha, h]

/-- Store environment whose rights lookup fails (used for C5). -/
def envC5 : StoreEnv := { envC2 with has_app_right_userid := fun _ _ _ => .error "boom" }

/-- C5 witness: fail-closed behaviour on a concrete failing store. -/
theorem hasAppRight_fail_closed_witness :
    hasAppRight envC5 none "user_1" UserMinRight.read = false
    ∧ hasAppRight envC5 (some "app_1") "user_1" UserMinRight.read = false :=
  ⟨(hasAppRight_fail_closed envC5 "user_1" UserMinRight.read).1,
   (hasAppRight_fail_closed envC5 "user_1" UserMinRight.read).2 "app_1" "boom" rfl⟩

/-- C6: for every input record, `segments` and `deleteSegments` are
disjoint, and every boolean field of the record appears, as its bare key, in
exactly one of the two lists. -/
theorem processSegments_partition (o : Segments) :
    (∀ x, x ∈ (processSegments o).segments → x ∉ (processSegments o).deleteSegments)
    ∧ (∀ k, k ∈ boolKeys →
        (k ∈ (processSegments o).segments ∧ k ∉ (processSegments o).deleteSegments)
        ∨ (k ∉ (processSegments o).segments ∧ k ∈ (processSegments o).deleteSegments)) := by
  constructor
  · intro x hx hd
    rw [mem_segments_iff] at hx
    rw [mem_deleteSegments_iff] at hd
    rcases hx with ⟨_, hf⟩ | ⟨_, rfl⟩
    · rw [hd.2] at hf
      exact Bool.false_ne_true hf
    · exact planTag_ne_boolKey o.plan _ hd.1 rfl
  · intro k hk
    by_cases hf : segField o k = true
    · left
      refine ⟨(mem_segments_iff o k).2 (Or.inl ⟨hk, hf⟩), fun hd => ?_⟩
      rw [((mem_deleteSegments_iff o k).1 hd).2] at hf
      exact Bool.false_ne_true hf
    · right
      have hf' : segField o k = false := by simpa using hf
      refine ⟨fun hs => ?_, (mem_deleteSegments_iff o k).2 ⟨hk, hf'⟩⟩
      rcases (mem_segments_iff o k).1 hs with ⟨_, h⟩ | ⟨_, h⟩
      · rw [hf'] at h
        exact Bool.false_ne_true h
      · exact planTag_ne_boolKey o.plan k hk h.symm

/-- A concrete input record for the C6 witness. -/
def segC6 : Segments :=
  { capgo := true, onboarded := true, trial := true, trial7 := false, trial1 := true,
    trial0 := false, paying := false, payingMonthly := true, plan := "Maker",
    overuse := false, canceled := true, issueSegment := false }

/-- C6 witness: the partition statement evaluated at a concrete record and
the boolean key "trial". -/
theorem processSegments_partition_witness :
    ("trial" ∈ (processSegments segC6).segments
      ∧ "trial" ∉ (processSegments segC6).deleteSegments)
    ∨ ("trial" ∉ (processSegments segC6).segments
      ∧ "trial" ∈ (processSegments segC6).deleteSegments) :=
  (processSegments_partition segC6).2 "trial" (by decide)

/-- Billing-flag environment of an onboarded, paying org over quota (used
for C3). -/
def envC3 : OrgStoreEnv := {
  is_onboarded_org := fun _ => .ok (some true)
  is_canceled_org := fun _ => .ok (some false)
  is_paying_org := fun _ => .ok (some true)
  is_trial_org := fun _ => .ok (some 0)
  is_good_plan_v5_org := fun _ => .ok (some false) }

/-- C3 counterexample: for an org state with onboarded, paying and not
canUseMore but no plan row, the paying-over-quota branch is not taken (it
also requires a present plan) and the computation falls through to the
`issueSegment` diagnostic bucket, so `segments` does not contain
"overuse". -/
theorem overuse_scenario_no_plan_cex :
    isOnboardedOrg envC3 "org_1" = true
    ∧ isPayingOrg envC3 "org_1" = true
    ∧ isGoodPlanOrg envC3 "org_1" = false
    ∧ "overuse" ∉ (customerToSegmentOrg envC3 "org_1" "price_1" none).segments
    ∧ "paying" ∉ (customerToSegmentOrg envC3 "org_1" "price_1" none).segments
    ∧ "issueSegment" ∈ (customerToSegmentOrg envC3 "org_1" "price_1" none).segments := by
  refine ⟨rfl, rfl, rfl, ?_, ?_, ?_⟩ <;> decide

/-- C3 (amended): for every org state with onboarded = true, paying = true,
canUseMore = false and a present plan row, the segment computation returns
`segments` containing "overuse" and "paying", and `deleteSegments`
containing "trial", "trial7", "trial1", "trial0" and "issueSegment". -/
theorem overuse_scenario_with_plan (env : OrgStoreEnv) (orgId price_id : String) (p : PlanRow)
    (h1 : isOnboardedOrg env orgId = true) (h2 : isPayingOrg env orgId = true)
    (h3 : isGoodPlanOrg env orgId = false) :
    "overuse" ∈ (customerToSegmentOrg env orgId price_id (some p)).segments
    ∧ "paying" ∈ (customerToSegmentOrg env orgId price_id (some p)).segments
    ∧ "trial" ∈ (customerToSegmentOrg env orgId price_id (some p)).deleteSegments
    ∧ "trial7" ∈ (customerToSegmentOrg env orgId price_id (some p)).deleteSegments
    ∧ "trial1" ∈ (customerToSegmentOrg env orgId price_id (some p)).deleteSegments
    ∧ "trial0" ∈ (customerToSegmentOrg env orgId price_id (some p)).deleteSegments
    ∧ "issueSegment" ∈ (customerToSegmentOrg env orgId price_id (some p)).deleteSegments := by
  have hbranch : customerToSegmentOrg env orgId price_id (some p)
      = processSegments
          { capgo := true, onboarded := true, trial := false, trial7 := false,
            trial1 := false, trial0 := false, paying := true,
            payingMonthly := p.price_m_id == some price_id, plan := p.name,
            overuse := true, canceled := isCanceledOrg env orgId, issueSegment := false } := by
    simp [customerToSegmentOrg, h1, h2, h3]
  rw [hbranch]
  refine ⟨(mem_segments_iff _ _).2 (Or.inl ⟨by decide, rfl⟩),
          (mem_segments_iff _ _).2 (Or.inl ⟨by decide, rfl⟩),
          (mem_deleteSegments_iff _ _).2 ⟨by decide, rfl⟩,
          (mem_deleteSegments_iff _ _).2 ⟨by decide, rfl⟩,
          (mem_deleteSegments_iff _ _).2 ⟨by decide, rfl⟩,
          (mem_deleteSegments_iff _ _).2 ⟨by decide, rfl⟩,
          (mem_deleteSegments_iff _ _).2 ⟨by decide, rfl⟩⟩

/-- C3 witness: the amended statement evaluated at a concrete environment
and plan row. -/
theorem overuse_scenario_with_plan_witness :
    "overuse" ∈ (customerToSegmentOrg envC3 "org_1" "price_1" (some ⟨"Pro", some "price_1"⟩)).segments
    ∧ "paying" ∈ (customerToSegmentOrg envC3 "org_1" "price_1" (some ⟨"Pro", some "price_1"⟩)).segments
    ∧ "trial" ∈ (customerToSegmentOrg envC3 "org_1" "price_1" (some ⟨"Pro", some "price_1"⟩)).deleteSegments
    ∧ "trial7" ∈ (customerToSegmentOrg envC3 "org_1" "price_1" (some ⟨"Pro", some "price_1"⟩)).deleteSegments
    ∧ "trial1" ∈ (customerToSegmentOrg envC3 "org_1" "price_1" (some ⟨"Pro", some "price_1"⟩)).deleteSegments
    ∧ "trial0" ∈ (customerToSegmentOrg envC3 "org_1" "price_1" (some ⟨"Pro", some "price_1"⟩)).deleteSegments
    ∧ "issueSegment" ∈ (customerToSegmentOrg envC3 "org_1" "price_1" (some ⟨"Pro", some "price_1"⟩)).deleteSegments :=
  overuse_scenario_with_plan envC3 "org_1" "price_1" ⟨"Pro", some "price_1"⟩ rfl rfl rfl

/-- A record whose boolean fields are all false and whose plan is empty
(used for C8). -/
def segC8 : Segments :=
  { capgo := false, onboarded := false, trial := false, trial7 := false, trial1 := false,
    trial0 := false, paying := false, payingMonthly := false, plan := "",
    overuse := false, canceled := false, issueSegment := false }

/-- C8 counterexample: `payingMonthly` is not a string-valued field of the
record — it is a boolean, so with a falsy value it is pushed as the bare key
"payingMonthly" onto `deleteSegments` instead of being omitted from both
lists (and it never forms a `key:value` tag: here `segments` is empty). -/
theorem payingMonthly_not_string_cex :
    "payingMonthly" ∈ (processSegments segC8).deleteSegments
    ∧ (processSegments segC8).segments = [] := by
  refine ⟨?_, ?_⟩ <;> decide

/-- C8 (amended): the string field `plan` becomes the `plan:<value>` tag in
`segments` exactly when non-empty, and an empty plan contributes no
`plan:<value>` tag to either list; `payingMonthly` is a boolean flag that
appears as a bare key in `segments` when true and in `deleteSegments` when
false. -/
theorem plan_tag_nonempty_only (o : Segments) :
    (o.plan ≠ "" → ("plan:" ++ o.plan) ∈ (processSegments o).segments)
    ∧ (o.plan = "" → ∀ v : String,
        ("plan:" ++ v) ∉ (processSegments o).segments
        ∧ ("plan:" ++ v) ∉ (processSegments o).deleteSegments)
    ∧ (o.payingMonthly = true → "payingMonthly" ∈ (processSegments o).segments)
    ∧ (o.payingMonthly = false → "payingMonthly" ∈ (processSegments o).deleteSegments) := by
  refine ⟨fun hp => ?_, fun he v => ⟨fun hs => ?_, fun hd => ?_⟩, fun hm => ?_, fun hm => ?_⟩
  · exact (mem_segments_iff o _).2 (Or.inr ⟨hp, rfl⟩)
  · rcases (mem_segments_iff o _).1 hs with ⟨hk, _⟩ | ⟨hp, _⟩
    · exact planTag_ne_boolKey v _ hk rfl
    · exact hp he
  · exact planTag_ne_boolKey v _ ((mem_deleteSegments_iff o _).1 hd).1 rfl
  · exact (mem_segments_iff o _).2 (Or.inl ⟨by decide, hm⟩)
  · exact (mem_deleteSegments_iff o _).2 ⟨by decide, hm⟩

/-- A record with a non-empty plan and a true `payingMonthly` (used for the
C8 witness). -/
def segC8b : Segments := { segC8 with plan := "Pro", payingMonthly := true }

/-- C8 witness: the amended statement evaluated at concrete records. -/
theorem plan_tag_nonempty_only_witness :
    "plan:Pro" ∈ (processSegments segC8b).segments
    ∧ "plan:Solo" ∉ (processSegments segC8).segments
    ∧ "plan:Solo" ∉ (processSegments segC8).deleteSegments
    ∧ "payingMonthly" ∈ (processSegments segC8b).segments
    ∧ "payingMonthly" ∈ (processSegments segC8).deleteSegments :=
  ⟨by
    have h := (plan_tag_nonempty_only segC8b).1 (by decide)
    simpa using h,
   ((plan_tag_nonempty_only segC8).2.1 rfl "Solo").1,
   ((plan_tag_nonempty_only segC8).2.1 rfl "Solo").2,
   (plan_tag_nonempty_only segC8b).2.2.1 rfl,
   (plan_tag_nonempty_only segC8).2.2.2 rfl⟩

/-- C4: the download-link handler gates its stages in order with fixed
rejection payloads — for a (well-formed) request with a missing or
empty-string (falsy) Authorization header it returns 400
`Cannot find authorization`; for a present header, when the token fails
identity validation it returns 400 `not authorize`; when the validated
principal lacks the read right on the app it returns 400 with the no-access
status echoing the request body's `app_id`. -/
theorem download_link_stage_gates (env : DownloadEnv) (d : DataDownload) :
    downloadLinkHandler env ⟨.ok d, none⟩ = ⟨400, .statusBody "Cannot find authorization"⟩
    ∧ downloadLinkHandler env ⟨.ok d, some ""⟩ = ⟨400, .statusBody "Cannot find authorization"⟩
    ∧ (∀ a : String, a ≠ "" →
        getUserRejected (env.getUser ((jsSplit a "Bearer ")[1]?)) = true →
        downloadLinkHandler env ⟨.ok d, some a⟩ = ⟨400, .statusBody "not authorize"⟩)
    ∧ (∀ (a uid : String), a ≠ "" →
        env.getUser ((jsSplit a "Bearer ")[1]?) = ⟨some ⟨some uid⟩, none⟩ →
        hasAppRight env.store (some d.app_id) uid UserMinRight.read = false →
        downloadLinkHandler env ⟨.ok d, some a⟩
          = ⟨400, .statusApp "You can\x27t access this app" d.app_id⟩) := by
  refine ⟨rfl, rfl, fun a ha h => ?_, fun a uid ha hg hr => ?_⟩
  · simp [downloadLinkHandler, downloadLinkTry, ha, h]
  · simp [downloadLinkHandler, downloadLinkTry, ha, hg, getUserRejected, hr]

/-- Identity provider and store for the C4 witness: one good token, rights
always denied. -/
def envC4 : DownloadEnv := {
  store := {
    has_app_right_userid := fun _ _ _ => .ok false
    get_total_metrics := fun _ => .error "unused"
    get_plan_usage_percent_detailed := fun _ => .error "unused"
    get_current_plan_name_org := fun _ => .error "unused" }
  getUser := fun t =>
    if t = some "tok_good" then ⟨some ⟨some "user_1"⟩, none⟩ else ⟨none, some "invalid JWT"⟩
  app_versions_lookup := fun _ _ => ⟨none, some "unused"⟩
  getBundleUrl := fun _ _ => none }

/-- The request body used by the C4 witness. -/
def dC4 : DataDownload := { app_id := "app123", storage_provider := "supabase", user_id := none, id := 7 }

/-- C4 witness: the gate responses evaluated on a concrete environment,
including the falsy empty-string header. -/
theorem download_link_stage_gates_witness :
    downloadLinkHandler envC4 ⟨.ok dC4, none⟩ = ⟨400, .statusBody "Cannot find authorization"⟩
    ∧ downloadLinkHandler envC4 ⟨.ok dC4, some ""⟩
        = ⟨400, .statusBody "Cannot find authorization"⟩
    ∧ downloadLinkHandler envC4 ⟨.ok dC4, some "Bearer tok_bad"⟩
        = ⟨400, .statusBody "not authorize"⟩
    ∧ downloadLinkHandler envC4 ⟨.ok dC4, some "Bearer tok_good"⟩
        = ⟨400, .statusApp "You can\x27t access this app" "app123"⟩ :=
  ⟨(download_link_stage_gates envC4 dC4).1,
   (download_link_stage_gates envC4 dC4).2.1,
   (download_link_stage_gates envC4 dC4).2.2.1 "Bearer tok_bad" (by decide) (by decide),
   (download_link_stage_gates envC4 dC4).2.2.2 "Bearer tok_good" "user_1" (by decide)
     (by decide) (by decide)⟩

/-- C10: the handler's decision and response are independent of the optional
`user_id` field of the request body — two requests identical except for
`body.user_id` produce the same response, because the right check uses the
principal id from the validated bearer token. -/
theorem download_link_user_id_independent (env : DownloadEnv) (auth : Option String)
    (d : DataDownload) (u1 u2 : Option String) :
    downloadLinkHandler env ⟨.ok { d with user_id := u1 }, auth⟩
      = downloadLinkHandler env ⟨.ok { d with user_id := u2 }, auth⟩ := rfl

/-- Environment for C1: token validates, read right granted, but the bundle
lookup by (app_id, id) fails (no row: `data` null, `error` set). -/
def envC1 : DownloadEnv := {
  store := {
    has_app_right_userid := fun _ _ _ => .ok true
    get_total_metrics := fun _ => .error "unused"
    get_plan_usage_percent_detailed := fun _ => .error "unused"
    get_current_plan_name_org := fun _ => .error "unused" }
  getUser := fun _ => ⟨some ⟨some "user_1"⟩, none⟩
  app_versions_lookup := fun _ _ => ⟨none, some "PGRST116: no rows returned"⟩
  getBundleUrl := fun _ _ => some "https://signed.example/url" }

/-- The request used for C1: well-formed body and bearer token. -/
def reqC1 : DownloadRequest :=
  ⟨.ok { app_id := "app_1", storage_provider := "supabase", user_id := none, id := 42 },
   some "Bearer tok_1"⟩

/-- C1: when the bundle lookup fails, the handler does NOT answer
`500 (status: Error unknow)` — the dereference
`(bundle?.owner_org as any).created_by` on line 44 runs before the
`getBundleError` check on line 46, throws a TypeError on the null bundle,
and the catch clause answers `500 (status: Cannot get download link)`
instead, leaving the `Error unknow` branch dead for this case. -/
theorem download_link_missing_bundle_catch_eval :
    downloadLinkHandler envC1 reqC1
      = ⟨500, .statusErrBody "Cannot get download link" "\x7b\x7d"⟩
    ∧ downloadLinkHandler envC1 reqC1 ≠ ⟨500, .statusBody "Error unknow"⟩
    ∧ downloadLinkTry envC1 reqC1 = .error JsError.typeError := by
  refine ⟨rfl, ?_, rfl⟩
  decide
